import Mathlib

/-!
Shallow embedding of `src/S3Client.ts` (node-aws-s3-client).

The TypeScript class `S3Client` wraps the AWS S3 SDK. Its mutable state is
the parsed CDN `URL` object and the optional `bucket` string; every external
effect (SDK `send` calls, `fs` calls, the `mime` lookup table) is modelled by
an environment record `Env` supplied to each operation, and each operation
additionally returns the ordered list of effect `Event`s it issued, so that
ordering claims ("before any remote call") can be stated.

Thrown JavaScript values are modelled by `Thrown`: an `Error` carrying its
message, or a non-`Error` value (the code distinguishes exactly these two via
`error instanceof Error ? error.message : <default>`).
-/

/-- A thrown JavaScript value: an `Error` with its message, or any other value. -/
inductive Thrown where
  | err (msg : String)
  | nonErr
deriving DecidableEq

/-- The catch-and-rethrow wrapper used by every public operation:
`new Error(error instanceof Error ? error.message : dflt)`. -/
def rewrap (dflt : String) : Thrown → Thrown
  | Thrown.err m => Thrown.err m
  | Thrown.nonErr => Thrown.err dflt

/-- JavaScript `v || d` on a nullable string: `null`/`undefined` and the empty
string are falsy. Used for `mime.getType(k) || "unknown"` and
`mime.getType(...) || "application/octet-stream"`. -/
def jsOr (v : Option String) (d : String) : String :=
  match v with
  | none => d
  | some s => if s = "" then d else s

/-- A remote AWS SDK command sent via `this.client.send`. The bucket field is
`Option String` because the commands receive `this.bucket : string | undefined`. -/
inductive RemoteCall where
  | listBuckets
  | listObjectsV2 (bucket : Option String) (pfx : Option String)
  | headObject (bucket : Option String) (key : String)
  | getObject (bucket : Option String) (key : String)
  | putObject (bucket : Option String) (key : String) (contentType : String)
  | deleteObject (bucket : Option String) (key : String)
deriving DecidableEq

/-- An observable effect issued by an operation, in order: a remote SDK call,
a local `fs.mkdirSync` of a directory, or a local write (`fs.createWriteStream`
plus the stream pipeline) to a path. -/
inductive Event where
  | remote (call : RemoteCall)
  | localMkdir (dir : String)
  | localWrite (p : String)
deriving DecidableEq

/-- Split a character list at every occurrence of `sep`; the accumulator
holds the current segment reversed. -/
def splitCharsAux (sep : Char) : List Char → List Char → List (List Char)
  | [], acc => [acc.reverse]
  | c :: rest, acc =>
    if c = sep then acc.reverse :: splitCharsAux sep rest []
    else splitCharsAux sep rest (c :: acc)

/-- Model of JavaScript `s.split(sep)` for a one-character separator:
splitting the empty string yields `[""]`, like in JavaScript. -/
def splitOnChar (s : String) (sep : Char) : List String :=
  (splitCharsAux sep s.data []).map String.mk

/-- Whether a string starts with the `/` character. -/
def startsWithSlash (s : String) : Bool :=
  match s.data with
  | [] => false
  | c :: _ => c = '/'

/-- Join strings with a one-character separator (inverse of `splitOnChar`). -/
def joinWithChar (sep : Char) : List String → String
  | [] => ""
  | [s] => s
  | s :: rest => s ++ String.mk [sep] ++ joinWithChar sep rest

/-- Model of node's WHATWG `URL` object, restricted to the pieces the client
touches: the origin (scheme plus host), the pathname, the query string
(`search`, includes its leading `?` when nonempty) and the fragment (`hash`,
includes its leading `#` when nonempty). -/
structure URLModel where
  origin : String
  pathname : String
  search : String
  hash : String
deriving DecidableEq

/-- The WHATWG `url.pathname = p` setter: the stored pathname always begins
with a slash, so a missing leading slash is prepended; `search` and `hash`
are left untouched (the setter only replaces the path component). -/
def URLModel.setPathname (u : URLModel) (p : String) : URLModel :=
  { u with pathname := if startsWithSlash p then p else "/" ++ p }

/-- `url.toString()`: serialize origin, pathname, query string and fragment. -/
def URLModel.toString (u : URLModel) : String :=
  u.origin ++ u.pathname ++ u.search ++ u.hash

/-- Model of node `path.dirname`: drop the last `/`-separated segment;
a path with no separator yields `"."`, and a top-level absolute path
yields `"/"`. -/
def dirname (p : String) : String :=
  let parts := splitOnChar p '/'
  if parts.length ≤ 1 then "."
  else
    let d := joinWithChar '/' parts.dropLast
    if d = "" then "/" else d

/-- Model of node `path.extname`: the suffix of the last path segment from its
last dot on, empty when the segment has no dot or only a leading dot. -/
def extname (p : String) : String :=
  let base := (splitOnChar p '/').getLastD ""
  let parts := splitOnChar base '.'
  if parts.length ≤ 1 then ""
  else if parts.headD "" = "" ∧ parts.length = 2 then ""
  else "." ++ parts.getLastD ""

/-- The provider's raw listing entry (`_Object` from the AWS SDK): all fields
optional. `LastModified` dates are modelled as natural timestamps. -/
structure ObjEntry where
  Key : Option String
  Size : Option Nat
  LastModified : Option Nat
deriving DecidableEq

/-- The client's public result record (`File` in `S3Client.types.ts`).
`lastModified` is `none` when the source timestamp was absent (the code then
builds an Invalid Date). -/
structure File where
  name : String
  key : String
  byte : Nat
  type : String
  url : String
  lastModified : Option Nat
deriving DecidableEq

/-- Response of a `HeadObjectCommand` send, reduced to the field the code
reads (`LastModified`). -/
structure HeadResponse where
  LastModified : Option Nat
deriving DecidableEq

/-- Response of a `GetObjectCommand` send: `Body` is present or absent
(the code only checks `!response.Body`). -/
structure GetResponse where
  Body : Option Unit
deriving DecidableEq

/-- The environment: results of every external call the operations can make.
Remote results are `Except Thrown _` — `Except.error` models the SDK `send`
promise rejecting with that thrown value. `fsExists` is `fs.existsSync`,
`statSize` is `fs.statSync(p).size`, `mimeGetType` is the external `mime`
lookup table (returns `null` for unknown input), and `pipelineResult` is the
promisified stream pipeline writing the downloaded body to disk. -/
structure Env where
  listBucketsResult : Except Thrown Nat
  listObjectsResult : Except Thrown (Option (List ObjEntry))
  headObject : String → Except Thrown HeadResponse
  getObject : String → Except Thrown GetResponse
  putObject : String → Except Thrown Unit
  deleteObject : String → Except Thrown Unit
  pipelineResult : Except Thrown Unit
  mimeGetType : String → Option String
  fsExists : String → Bool
  statSize : String → Nat

/-- The client's mutable instance state: the parsed CDN `URL` object
(mutated in place by `urlGenerator`) and the selected bucket. -/
structure S3ClientState where
  url : URLModel
  bucket : Option String
deriving DecidableEq

namespace S3Client

/-- `setBucket(bucket)`: assign the bucket; chaining returns the same
instance, i.e. the updated state. -/
def setBucket (st : S3ClientState) (bucket : String) : S3ClientState :=
  { st with bucket := some bucket }

/-- `urlGenerator(pathName)`: set `this.url.pathname = pathName` (an in-place
mutation, hence the returned state) and return `this.url.toString()`. -/
def urlGenerator (st : S3ClientState) (pathName : String) : S3ClientState × String :=
  let u := st.url.setPathname pathName
  ({ st with url := u }, u.toString)

/-- `checkCredentials()`: send `ListBucketsCommand`; throw
`"Authentication failed!"` unless the response status is 200; a rejected
send propagates its thrown value. -/
def checkCredentials (env : Env) : Except Thrown Unit × List Event :=
  let tr : List Event := [Event.remote RemoteCall.listBuckets]
  match env.listBucketsResult with
  | Except.error e => (Except.error e, tr)
  | Except.ok status =>
    if status ≠ 200 then (Except.error (Thrown.err "Authentication failed!"), tr)
    else (Except.ok (), tr)

/-- `check()`: run `checkCredentials()`, then throw `"Bucket is not set!"`
when `this.bucket` is undefined. -/
def check (st : S3ClientState) (env : Env) : Except Thrown Unit × List Event :=
  match checkCredentials env with
  | (Except.error e, tr) => (Except.error e, tr)
  | (Except.ok _, tr) =>
    match st.bucket with
    | none => (Except.error (Thrown.err "Bucket is not set!"), tr)
    | some _ => (Except.ok (), tr)

/-- `checkIfFileExists(key)`: send `HeadObjectCommand`; `true` on success and
`false` on ANY rejection (the bare `catch` swallows the thrown value). -/
def checkIfFileExists (st : S3ClientState) (env : Env) (key : String) :
    Bool × List Event :=
  let tr : List Event := [Event.remote (RemoteCall.headObject st.bucket key)]
  match env.headObject key with
  | Except.ok _ => (true, tr)
  | Except.error _ => (false, tr)

/-- `fileGenerator(item)`: when `(item?.Size ?? 0) > 0 && item.Key` (an empty
key string is falsy), build the `File` record; otherwise return `undefined`.
Mutates `this.url` through `urlGenerator`, hence the returned state. -/
def fileGenerator (st : S3ClientState) (env : Env) (item : ObjEntry) :
    S3ClientState × Option File :=
  if item.Size.getD 0 > 0 ∧ item.Key.getD "" ≠ "" then
    let k := item.Key.getD ""
    let g := urlGenerator st k
    (g.1, some {
      name := (splitOnChar k '/').getLastD "",
      key := k,
      byte := item.Size.getD 0,
      type := jsOr (env.mimeGetType k) "unknown",
      url := g.2,
      lastModified := item.LastModified })
  else (st, none)

/-- The `for (const item of response.Contents)` loop of `list`: run
`fileGenerator` on each entry in order, pushing each defined result. -/
def listLoop (env : Env) : S3ClientState → List ObjEntry → S3ClientState × List File
  | st, [] => (st, [])
  | st, item :: rest =>
    let fg := fileGenerator st env item
    let r := listLoop env fg.1 rest
    match fg.2 with
    | some f => (r.1, f :: r.2)
    | none => (r.1, r.2)

/-- `list(options)`: guard, send `ListObjectsV2Command` with the selected
bucket and optional prefix, throw `"No files found!"` when `Contents` is not
an array or is empty, else map the entries through `fileGenerator`; every
failure is rewrapped with default message `"Failed to list files!"`. -/
def list (st : S3ClientState) (env : Env) (pathOpt : Option String) :
    S3ClientState × Except Thrown (List File) × List Event :=
  match check st env with
  | (Except.error e, tr) => (st, Except.error (rewrap "Failed to list files!" e), tr)
  | (Except.ok _, tr) =>
    let tr := tr ++ [Event.remote (RemoteCall.listObjectsV2 st.bucket pathOpt)]
    match env.listObjectsResult with
    | Except.error e => (st, Except.error (rewrap "Failed to list files!" e), tr)
    | Except.ok none => (st, Except.error (Thrown.err "No files found!"), tr)
    | Except.ok (some contents) =>
      if contents.length = 0 then
        (st, Except.error (Thrown.err "No files found!"), tr)
      else
        let r := listLoop env st contents
        (r.1, Except.ok r.2, tr)

/-- The `file` argument of `upload`: a local path or an in-memory `Buffer`
(a byte sequence). -/
inductive UploadSource where
  | filePath (p : String)
  | buffer (data : List Nat)
deriving DecidableEq

/-- `upload(options)`: guard, derive the content type from the extension of
the destination key (buffer source) or the source path, send `PutObjectCommand`
then `HeadObjectCommand`, and build the result with `fileGenerator` from the
destination key, the independently computed size (buffer length or
`fs.statSync(file).size`) and the head response's `LastModified`. The code
casts `fileGenerator`'s possibly-undefined result with `as File`, so the
returned value is modelled as `Option File`, `none` being `undefined`.
Failures are rewrapped with default message `"Failed to upload file!"`. -/
def upload (st : S3ClientState) (env : Env) (file : UploadSource) (destFile : String) :
    S3ClientState × Except Thrown (Option File) × List Event :=
  match check st env with
  | (Except.error e, tr) => (st, Except.error (rewrap "Failed to upload file!" e), tr)
  | (Except.ok _, tr) =>
    let contentType :=
      jsOr (env.mimeGetType (extname (match file with
        | UploadSource.buffer _ => destFile
        | UploadSource.filePath p => p))) "application/octet-stream"
    let tr := tr ++ [Event.remote (RemoteCall.putObject st.bucket destFile contentType)]
    match env.putObject destFile with
    | Except.error e => (st, Except.error (rewrap "Failed to upload file!" e), tr)
    | Except.ok _ =>
      let tr := tr ++ [Event.remote (RemoteCall.headObject st.bucket destFile)]
      match env.headObject destFile with
      | Except.error e => (st, Except.error (rewrap "Failed to upload file!" e), tr)
      | Except.ok resp =>
        let size := match file with
          | UploadSource.buffer data => data.length
          | UploadSource.filePath p => env.statSize p
        let fg := fileGenerator st env
          { Key := some destFile, Size := some size, LastModified := resp.LastModified }
        (fg.1, Except.ok fg.2, tr)

/-- `delete(options)`: guard, `checkIfFileExists`, throw
`"File does not exist!"` when it reports false, else send
`DeleteObjectCommand`; failures are rewrapped with default message
`"Failed to delete file!"`. -/
def delete (st : S3ClientState) (env : Env) (file : String) :
    Except Thrown Unit × List Event :=
  match check st env with
  | (Except.error e, tr) => (Except.error (rewrap "Failed to delete file!" e), tr)
  | (Except.ok _, tr) =>
    let ex := checkIfFileExists st env file
    let tr := tr ++ ex.2
    if ex.1 = false then (Except.error (Thrown.err "File does not exist!"), tr)
    else
      let tr := tr ++ [Event.remote (RemoteCall.deleteObject st.bucket file)]
      match env.deleteObject file with
      | Except.error e => (Except.error (rewrap "Failed to delete file!" e), tr)
      | Except.ok _ => (Except.ok (), tr)

/-- `download(options)`: guard, then locally: throw `"File already exists!"`
when the destination exists, `mkdirSync` the destination directory when
missing; then remotely: `checkIfFileExists` (throw `"File does not exist!"`
when false), `GetObjectCommand`, throw `"Response body is empty!"` on an
absent body, then stream the body to the destination path. Failures are
rewrapped with default message `"Failed to download file!"`. -/
def download (st : S3ClientState) (env : Env) (file outFile : String) :
    Except Thrown Unit × List Event :=
  match check st env with
  | (Except.error e, tr) => (Except.error (rewrap "Failed to download file!" e), tr)
  | (Except.ok _, tr) =>
    let outDir := dirname outFile
    if env.fsExists outFile then
      (Except.error (Thrown.err "File already exists!"), tr)
    else
      let tr := if env.fsExists outDir then tr else tr ++ [Event.localMkdir outDir]
      let ex := checkIfFileExists st env file
      let tr := tr ++ ex.2
      if ex.1 = false then (Except.error (Thrown.err "File does not exist!"), tr)
      else
        let tr := tr ++ [Event.remote (RemoteCall.getObject st.bucket file)]
        match env.getObject file with
        | Except.error e => (Except.error (rewrap "Failed to download file!" e), tr)
        | Except.ok resp =>
          match resp.Body with
          | none => (Except.error (Thrown.err "Response body is empty!"), tr)
          | some _ =>
            let tr := tr ++ [Event.localWrite outFile]
            match env.pipelineResult with
            | Except.error e => (Except.error (rewrap "Failed to download file!" e), tr)
            | Except.ok _ => (Except.ok (), tr)

end S3Client

open S3Client

/-- The `File` record that `fileGenerator` builds for an entry passing its
guard, expressed as a pure function of the URL's stable components. -/
def mkFile (u : URLModel) (env : Env) (item : ObjEntry) : File :=
  let k := item.Key.getD ""
  { name := (splitOnChar k '/').getLastD "",
    key := k,
    byte := item.Size.getD 0,
    type := jsOr (env.mimeGetType k) "unknown",
    url := u.origin ++ (if startsWithSlash k then k else "/" ++ k) ++ u.search ++ u.hash,
    lastModified := item.LastModified }

/-- `fileGenerator`'s value as a pure function: `some (mkFile ...)` when the
entry passes the size-and-key guard, else `none`. -/
def mkFileOpt (u : URLModel) (env : Env) (item : ObjEntry) : Option File :=
  if item.Size.getD 0 > 0 ∧ item.Key.getD "" ≠ "" then some (mkFile u env item)
  else none

theorem fileGenerator_snd (st : S3ClientState) (env : Env) (item : ObjEntry) :
    (fileGenerator st env item).2 = mkFileOpt st.url env item := by
  by_cases h : item.Size.getD 0 > 0 ∧ item.Key.getD "" ≠ ""
  · simp [fileGenerator, mkFileOpt, mkFile, urlGenerator, URLModel.setPathname,
      URLModel.toString, h]
  · simp [fileGenerator, mkFileOpt, h]

theorem fileGenerator_fst_stable (st : S3ClientState) (env : Env) (item : ObjEntry) :
    (fileGenerator st env item).1.url.origin = st.url.origin ∧
    (fileGenerator st env item).1.url.search = st.url.search ∧
    (fileGenerator st env item).1.url.hash = st.url.hash := by
  unfold fileGenerator urlGenerator URLModel.setPathname
  split <;> simp

theorem mkFileOpt_congr (u v : URLModel) (env : Env)
    (ho : u.origin = v.origin) (hs : u.search = v.search) (hh : u.hash = v.hash) :
    mkFileOpt u env = mkFileOpt v env := by
  funext item
  unfold mkFileOpt mkFile
  rw [ho, hs, hh]

theorem listLoop_snd (env : Env) (st : S3ClientState) (l : List ObjEntry) :
    (listLoop env st l).2 = l.filterMap (mkFileOpt st.url env) := by
  induction l generalizing st with
  | nil => rfl
  | cons item rest ih =>
    obtain ⟨ho, hs, hh⟩ := fileGenerator_fst_stable st env item
    have hrest : (listLoop env (fileGenerator st env item).1 rest).2 =
        rest.filterMap (mkFileOpt st.url env) := by
      rw [ih, mkFileOpt_congr _ _ env ho hs hh]
    show (match (fileGenerator st env item).2 with
      | some f => ((listLoop env (fileGenerator st env item).1 rest).1,
          f :: (listLoop env (fileGenerator st env item).1 rest).2)
      | none => ((listLoop env (fileGenerator st env item).1 rest).1,
          (listLoop env (fileGenerator st env item).1 rest).2)).2 =
      (item :: rest).filterMap (mkFileOpt st.url env)
    rw [fileGenerator_snd, List.filterMap_cons]
    cases h : mkFileOpt st.url env item <;> simp [hrest]

theorem check_ok (st : S3ClientState) (env : Env) (b : String)
    (hb : st.bucket = some b) (hc : env.listBucketsResult = Except.ok 200) :
    check st env = (Except.ok (), [Event.remote RemoteCall.listBuckets]) := by
  simp [check, checkCredentials, hb, hc]

/-- C1 counterexample state: client with a bucket selected. -/
def stC : S3ClientState :=
  { url := { origin := "https://cdn.example.com", pathname := "/", search := "", hash := "" },
    bucket := some "example-bucket" }

/-- A fully healthy environment: credentials valid, every remote call
succeeds, the listing holds the 0-byte marker `assets/` and a 12345-byte
`assets/example.jpeg`, no local path exists. -/
def envOk : Env := {
  listBucketsResult := Except.ok 200,
  listObjectsResult := Except.ok (some [
    { Key := some "assets/", Size := some 0, LastModified := some 100 },
    { Key := some "assets/example.jpeg", Size := some 12345, LastModified := some 200 }]),
  headObject := fun _ => Except.ok { LastModified := some 200 },
  getObject := fun _ => Except.ok { Body := some () },
  putObject := fun _ => Except.ok (),
  deleteObject := fun _ => Except.ok (),
  pipelineResult := Except.ok (),
  mimeGetType := fun s =>
    if s = "assets/example.jpeg" ∨ s = ".jpeg" then some "image/jpeg"
    else if s = ".txt" then some "text/plain" else none,
  fsExists := fun _ => false,
  statSize := fun _ => 12345 }

/-- C1, amended: with valid credentials and a bucket selected, a download
whose local destination already exists fails with `"File already exists!"`
after exactly one remote call — the guard's credential check (ListBuckets) —
and before any head-object or get-object call. -/
theorem C1_download_conflict (st : S3ClientState) (env : Env) (file outFile b : String)
    (hb : st.bucket = some b) (hc : env.listBucketsResult = Except.ok 200)
    (hex : env.fsExists outFile = true) :
    download st env file outFile =
      (Except.error (Thrown.err "File already exists!"),
       [Event.remote RemoteCall.listBuckets]) := by
  simp [download, check_ok st env b hb hc, hex]

/-- C1 witness: the amended statement at a concrete input. -/
theorem C1_download_conflict_witness :
    download stC { envOk with fsExists := fun p => p = "/var/data/out" } "k" "/var/data/out" =
      (Except.error (Thrown.err "File already exists!"),
       [Event.remote RemoteCall.listBuckets]) :=
  C1_download_conflict stC _ "k" "/var/data/out" "example-bucket" rfl rfl (by simp)

/-- C1 counterexample: at a concrete input where the destination exists, the
download does fail with `"File already exists!"`, but its effect trace is the
singleton credential-check call — a remote call IS issued before the failure,
refuting the claim that the check precedes any remote call. -/
theorem C1_counterexample :
    (download stC { envOk with fsExists := fun p => p = "/tmp/out" } "k" "/tmp/out").1 =
      Except.error (Thrown.err "File already exists!") ∧
    (download stC { envOk with fsExists := fun p => p = "/tmp/out" } "k" "/tmp/out").2 =
      [Event.remote RemoteCall.listBuckets] ∧
    ([Event.remote RemoteCall.listBuckets] : List Event) ≠ [] :=
  ⟨rfl, rfl, by simp⟩

/-- C6: any data operation invoked with no bucket selected, under a
succeeding credential check, fails with `"Bucket is not set!"` and issues no
remote call beyond the credential check itself. -/
theorem C6_bucket_not_set (st : S3ClientState) (env : Env) (pathOpt : Option String)
    (key dest out : String) (src : UploadSource)
    (hb : st.bucket = none) (hc : env.listBucketsResult = Except.ok 200) :
    (list st env pathOpt).2 =
      (Except.error (Thrown.err "Bucket is not set!"), [Event.remote RemoteCall.listBuckets]) ∧
    (upload st env src dest).2 =
      (Except.error (Thrown.err "Bucket is not set!"), [Event.remote RemoteCall.listBuckets]) ∧
    delete st env key =
      (Except.error (Thrown.err "Bucket is not set!"), [Event.remote RemoteCall.listBuckets]) ∧
    download st env key out =
      (Except.error (Thrown.err "Bucket is not set!"), [Event.remote RemoteCall.listBuckets]) := by
  simp [list, upload, delete, download, check, checkCredentials, rewrap, hb, hc]

/-- C6 witness: the four operations at a concrete bucketless client. -/
theorem C6_bucket_not_set_witness :
    (list { stC with bucket := none } envOk (some "assets")).2 =
      (Except.error (Thrown.err "Bucket is not set!"), [Event.remote RemoteCall.listBuckets]) ∧
    (upload { stC with bucket := none } envOk (UploadSource.buffer [1]) "assets/a.txt").2 =
      (Except.error (Thrown.err "Bucket is not set!"), [Event.remote RemoteCall.listBuckets]) ∧
    delete { stC with bucket := none } envOk "assets/a.txt" =
      (Except.error (Thrown.err "Bucket is not set!"), [Event.remote RemoteCall.listBuckets]) ∧
    download { stC with bucket := none } envOk "assets/a.txt" "/tmp/a.txt" =
      (Except.error (Thrown.err "Bucket is not set!"), [Event.remote RemoteCall.listBuckets]) :=
  C6_bucket_not_set { stC with bucket := none } envOk (some "assets")
    "assets/a.txt" "assets/a.txt" "/tmp/a.txt" (UploadSource.buffer [1]) rfl rfl

/-- C2, amended: with valid credentials and a bucket selected, a list call
whose provider response has an absent entry collection or zero entries fails
with `"No files found!"`; but a nonempty collection containing only zero-byte
entries returns successfully with the EMPTY sequence (the length guard passes
and the loop filters every entry out). -/
theorem C2_list_not_found (st : S3ClientState) (env : Env) (pathOpt : Option String)
    (b : String)
    (hb : st.bucket = some b) (hc : env.listBucketsResult = Except.ok 200) :
    ((env.listObjectsResult = Except.ok none ∨
        env.listObjectsResult = Except.ok (some [])) →
      (list st env pathOpt).2.1 = Except.error (Thrown.err "No files found!")) ∧
    (∀ l : List ObjEntry, l ≠ [] → (∀ e ∈ l, e.Size.getD 0 = 0) →
      env.listObjectsResult = Except.ok (some l) →
      (list st env pathOpt).2.1 = Except.ok []) := by
  constructor
  · rintro (h | h) <;> simp [list, check_ok st env b hb hc, h]
  · intro l hne hz h
    have hlen : ¬ l.length = 0 := by simpa using hne
    have hmap : l.filterMap (mkFileOpt st.url env) = [] := by
      rw [List.filterMap_eq_nil_iff]
      intro e he
      simp [mkFileOpt, hz e he]
    simp [list, check_ok st env b hb hc, h, hlen, listLoop_snd, hmap]

/-- The single 0-byte directory-marker entry used in counterexamples. -/
def markerEntry : ObjEntry :=
  { Key := some "assets/", Size := some 0, LastModified := some 100 }

/-- C2 counterexample: a provider response whose entry collection is the
single 0-byte marker entry makes list resolve successfully with the empty
sequence — it does not fail with `"No files found!"`. -/
theorem C2_counterexample :
    (list stC { envOk with listObjectsResult := Except.ok (some [markerEntry]) }
      (some "assets")).2.1 = Except.ok [] := rfl

/-- C2 witness: both amended branches at concrete inputs. -/
theorem C2_list_not_found_witness :
    (list stC { envOk with listObjectsResult := Except.ok none } (some "assets")).2.1 =
      Except.error (Thrown.err "No files found!") ∧
    (list stC { envOk with listObjectsResult := Except.ok (some [markerEntry]) }
      (some "photos")).2.1 = Except.ok [] :=
  ⟨(C2_list_not_found stC { envOk with listObjectsResult := Except.ok none }
      (some "assets") "example-bucket" rfl rfl).1 (Or.inl rfl),
   (C2_list_not_found stC { envOk with listObjectsResult := Except.ok (some [markerEntry]) }
      (some "photos") "example-bucket" rfl rfl).2 [markerEntry]
      (by simp) (by simp [markerEntry]) rfl⟩

theorem filterMap_mkFileOpt_eq (u : URLModel) (env : Env) (l : List ObjEntry)
    (hk : ∀ e ∈ l, e.Key.getD "" ≠ "") :
    l.filterMap (mkFileOpt u env) =
      (l.filter fun e => 0 < e.Size.getD 0).map (mkFile u env) := by
  induction l with
  | nil => rfl
  | cons e rest ih =>
    have hke : e.Key.getD "" ≠ "" := hk e (by simp)
    have hrest := ih fun x hx => hk x (by simp [hx])
    by_cases hs : 0 < e.Size.getD 0
    · simp [List.filterMap_cons, List.filter_cons, mkFileOpt, hs, hke, hrest]
    · simp [List.filterMap_cons, List.filter_cons, mkFileOpt, hs, hke, hrest]

/-- C5: with valid credentials and a bucket selected, a list call whose
provider response holds entries with nonempty keys, at least one of positive
size, returns exactly the positive-size entries — every zero-byte entry is
excluded — as File records in the provider's order. -/
theorem C5_list_positive (st : S3ClientState) (env : Env) (pathOpt : Option String)
    (b : String) (l : List ObjEntry)
    (hb : st.bucket = some b) (hc : env.listBucketsResult = Except.ok 200)
    (hr : env.listObjectsResult = Except.ok (some l))
    (hk : ∀ e ∈ l, e.Key.getD "" ≠ "")
    (hpos : ∃ e ∈ l, 0 < e.Size.getD 0) :
    (list st env pathOpt).2.1 =
      Except.ok ((l.filter fun e => 0 < e.Size.getD 0).map (mkFile st.url env)) := by
  obtain ⟨e0, he0, -⟩ := hpos
  have hlen : ¬ l.length = 0 := by
    cases l
    · cases he0
    · simp
  simp [list, check_ok st env b hb hc, hr, hlen, listLoop_snd,
    filterMap_mkFileOpt_eq st.url env l hk]

/-- The provider response used by `envOk`: the 0-byte marker plus one
12345-byte image. -/
def awsContents : List ObjEntry :=
  [{ Key := some "assets/", Size := some 0, LastModified := some 100 },
   { Key := some "assets/example.jpeg", Size := some 12345, LastModified := some 200 }]

/-- C5 witness: the marker-plus-image listing at a concrete client. -/
theorem C5_list_positive_witness :
    (list stC { envOk with listObjectsResult := Except.ok (some awsContents) }
      (some "assets")).2.1 =
      Except.ok ((awsContents.filter fun e => 0 < e.Size.getD 0).map
        (mkFile stC.url { envOk with listObjectsResult := Except.ok (some awsContents) })) :=
  C5_list_positive stC { envOk with listObjectsResult := Except.ok (some awsContents) }
    (some "assets") "example-bucket" awsContents rfl rfl rfl (by decide) (by decide)

/-- C3, amended: uploading a buffer of N > 0 bytes to a nonempty key K, with
valid credentials, a bucket selected, and succeeding put and head calls,
returns a File record whose `byte` equals N, whose `key` equals K, and whose
`url` is the base URL with its path component replaced by K. -/
theorem C3_upload_roundtrip (st : S3ClientState) (env : Env) (data : List Nat)
    (K b : String) (resp : HeadResponse)
    (hb : st.bucket = some b) (hc : env.listBucketsResult = Except.ok 200)
    (hput : env.putObject K = Except.ok ())
    (hhead : env.headObject K = Except.ok resp)
    (hN : 0 < data.length) (hK : K ≠ "") :
    ∃ f : File,
      (upload st env (UploadSource.buffer data) K).2.1 = Except.ok (some f) ∧
      f.byte = data.length ∧ f.key = K ∧
      f.url = (st.url.setPathname K).toString := by
  refine ⟨mkFile st.url env
    { Key := some K, Size := some data.length, LastModified := resp.LastModified },
    ?_, ?_, ?_, ?_⟩
  · simp [upload, check_ok st env b hb hc, hput, hhead, fileGenerator_snd,
      mkFileOpt, hN, hK]
  · simp [mkFile]
  · simp [mkFile]
  · simp [mkFile, URLModel.setPathname, URLModel.toString]

/-- C3 witness: a 3-byte buffer uploaded to `assets/example.txt`. -/
theorem C3_upload_roundtrip_witness :
    ∃ f : File,
      (upload stC envOk (UploadSource.buffer [7, 8, 9]) "assets/example.txt").2.1 =
        Except.ok (some f) ∧
      f.byte = ([7, 8, 9] : List Nat).length ∧ f.key = "assets/example.txt" ∧
      f.url = (stC.url.setPathname "assets/example.txt").toString :=
  C3_upload_roundtrip stC envOk [7, 8, 9] "assets/example.txt" "example-bucket"
    { LastModified := some 200 } rfl rfl rfl rfl (by decide) (by decide)

/-- C3 counterexample: a successful upload of a 0-byte buffer resolves
normally but yields no File record at all (the code's `as File` cast turns
`fileGenerator`'s `undefined` into the resolved value), so no File record
with `byte = 0` is returned. -/
theorem C3_counterexample :
    (upload stC envOk (UploadSource.buffer []) "assets/empty.txt").2.1 =
      Except.ok none := rfl

/-- C4, amended: every File record built by `fileGenerator` (the single
constructor of File records, used by list and upload) has `url` equal to the
base URL with its path component replaced by the record's key (a leading
slash prepended when the key lacks one) — but the base URL's query string
and fragment are PRESERVED in the url, not dropped. -/
theorem C4_file_url (st st2 : S3ClientState) (env : Env) (item : ObjEntry) (f : File)
    (h : fileGenerator st env item = (st2, some f)) :
    f.url = st.url.origin ++
      (if startsWithSlash f.key then f.key else "/" ++ f.key) ++
      st.url.search ++ st.url.hash := by
  have h2 : mkFileOpt st.url env item = some f := by
    rw [← fileGenerator_snd, h]
  unfold mkFileOpt at h2
  split at h2
  · cases h2
    simp [mkFile]
  · cases h2

/-- The 12345-byte image entry of the mock provider listing. -/
def jpegEntry : ObjEntry :=
  { Key := some "assets/example.jpeg", Size := some 12345, LastModified := some 200 }

/-- The File record `fileGenerator` builds from `jpegEntry` at `stC`. -/
def jpegFile : File :=
  { name := "example.jpeg", key := "assets/example.jpeg", byte := 12345,
    type := "image/jpeg", url := "https://cdn.example.com/assets/example.jpeg",
    lastModified := some 200 }

/-- C4 witness: the amended invariant at the concrete image entry. -/
theorem C4_file_url_witness :
    jpegFile.url = stC.url.origin ++
      (if startsWithSlash jpegFile.key then jpegFile.key else "/" ++ jpegFile.key) ++
      stC.url.search ++ stC.url.hash :=
  C4_file_url stC
    { stC with url := { stC.url with pathname := "/assets/example.jpeg" } }
    envOk jpegEntry jpegFile (by decide)

/-- A client whose configured base URL carries a query string and fragment. -/
def stQ : S3ClientState :=
  { url := { origin := "https://cdn.example.com", pathname := "/",
             search := "?token=abc", hash := "#frag" },
    bucket := some "example-bucket" }

/-- C4 counterexample: with a base URL carrying query `?token=abc` and
fragment `#frag`, the File record produced by list has a url ending in that
query string and fragment — which the claim says never appear. -/
theorem C4_counterexample :
    (list stQ envOk (some "assets")).2.1 =
      Except.ok [{ name := "example.jpeg", key := "assets/example.jpeg",
                   byte := 12345, type := "image/jpeg",
                   url := "https://cdn.example.com" ++ "/assets/example.jpeg" ++
                     "?token=abc" ++ "#frag",
                   lastModified := some 200 }] ∧
    ("https://cdn.example.com" ++ "/assets/example.jpeg" ++ "?token=abc" ++ "#frag"
        : String) ≠
      "https://cdn.example.com" ++ "/assets/example.jpeg" :=
  ⟨rfl, by decide⟩

/-- C7: at the failing input — a 0-byte buffer uploaded with every provider
call succeeding — upload runs to completion (put-object and head-object both
issued), resolves normally, and produces no File record: the `as File` cast
lets `fileGenerator`'s `undefined` through, contradicting the declared
`Promise<File>` return type and its doc comment. -/
theorem C7_upload_zero_byte :
    (upload stC envOk (UploadSource.buffer []) "assets/blank.bin").2 =
      (Except.ok none,
       [Event.remote RemoteCall.listBuckets,
        Event.remote (RemoteCall.putObject (some "example-bucket")
          "assets/blank.bin" "application/octet-stream"),
        Event.remote (RemoteCall.headObject (some "example-bucket")
          "assets/blank.bin")]) := rfl

/-- C8: with valid credentials and a bucket selected, deleting a key whose
head-object existence check fails (the key is absent) fails with
`"File does not exist!"`, and the effect trace contains the credential check
and the head-object call only — no delete-object call is issued. -/
theorem C8_delete_missing (st : S3ClientState) (env : Env) (key b : String) (e : Thrown)
    (hb : st.bucket = some b) (hc : env.listBucketsResult = Except.ok 200)
    (hh : env.headObject key = Except.error e) :
    delete st env key =
      (Except.error (Thrown.err "File does not exist!"),
       [Event.remote RemoteCall.listBuckets,
        Event.remote (RemoteCall.headObject (some b) key)]) := by
  simp [delete, check_ok st env b hb hc, checkIfFileExists, hh, hb]

/-- C8 witness: deleting `assets/example.jpeg` when head-object rejects. -/
theorem C8_delete_missing_witness :
    delete stC { envOk with headObject := fun _ => Except.error (Thrown.err "NotFound") }
      "assets/example.jpeg" =
      (Except.error (Thrown.err "File does not exist!"),
       [Event.remote RemoteCall.listBuckets,
        Event.remote (RemoteCall.headObject (some "example-bucket")
          "assets/example.jpeg")]) :=
  C8_delete_missing stC
    { envOk with headObject := fun _ => Except.error (Thrown.err "NotFound") }
    "assets/example.jpeg" "example-bucket" (Thrown.err "NotFound") rfl rfl rfl

/-- C9: for delete and download (destination not already present), ANY
rejection of the head-object call — whatever thrown value `e` it carries,
network, authorization or genuine absence — is swallowed by
`checkIfFileExists`'s bare catch and reported as non-existence, so both
operations fail with `"File does not exist!"`. -/
theorem C9_head_failure_as_absence (st : S3ClientState) (env : Env)
    (key outFile b : String) (e : Thrown)
    (hb : st.bucket = some b) (hc : env.listBucketsResult = Except.ok 200)
    (hh : env.headObject key = Except.error e)
    (hout : env.fsExists outFile = false) :
    (delete st env key).1 = Except.error (Thrown.err "File does not exist!") ∧
    (download st env key outFile).1 =
      Except.error (Thrown.err "File does not exist!") := by
  constructor
  · simp [delete, check_ok st env b hb hc, checkIfFileExists, hh]
  · simp [download, check_ok st env b hb hc, checkIfFileExists, hh, hout]

/-- C9 witness: a non-`Error` rejection (a plain thrown value, as from a
network layer) still surfaces as `"File does not exist!"` for both
operations. -/
theorem C9_head_failure_as_absence_witness :
    (delete stC { envOk with headObject := fun _ => Except.error Thrown.nonErr }
      "assets/example.jpeg").1 =
      Except.error (Thrown.err "File does not exist!") ∧
    (download stC { envOk with headObject := fun _ => Except.error Thrown.nonErr }
      "assets/example.jpeg" "/tmp/example.jpeg").1 =
      Except.error (Thrown.err "File does not exist!") :=
  C9_head_failure_as_absence stC
    { envOk with headObject := fun _ => Except.error Thrown.nonErr }
    "assets/example.jpeg" "/tmp/example.jpeg" "example-bucket" Thrown.nonErr
    rfl rfl rfl rfl

/-- C10: when the destination path does not exist but its parent directory is
also missing, download records the `mkdirSync` of the parent directory in its
effect trace BEFORE the head-object existence check; since no effect removes
a directory, the created directories persist when the operation then fails —
whether because the remote key is absent (head-object rejects) or because the
get-object response carries no body. -/
theorem C10_mkdir_before_head (st : S3ClientState) (env : Env)
    (key outFile b : String)
    (hb : st.bucket = some b) (hc : env.listBucketsResult = Except.ok 200)
    (hout : env.fsExists outFile = false)
    (hdir : env.fsExists (dirname outFile) = false) :
    (∀ e : Thrown, env.headObject key = Except.error e →
      download st env key outFile =
        (Except.error (Thrown.err "File does not exist!"),
         [Event.remote RemoteCall.listBuckets,
          Event.localMkdir (dirname outFile),
          Event.remote (RemoteCall.headObject (some b) key)])) ∧
    (∀ hresp : HeadResponse, ∀ gresp : GetResponse,
      env.headObject key = Except.ok hresp →
      env.getObject key = Except.ok gresp → gresp.Body = none →
      download st env key outFile =
        (Except.error (Thrown.err "Response body is empty!"),
         [Event.remote RemoteCall.listBuckets,
          Event.localMkdir (dirname outFile),
          Event.remote (RemoteCall.headObject (some b) key),
          Event.remote (RemoteCall.getObject (some b) key)])) := by
  constructor
  · intro e hh
    simp [download, check_ok st env b hb hc, checkIfFileExists, hh, hout, hdir, hb]
  · intro hresp gresp hh hg hbody
    simp [download, check_ok st env b hb hc, checkIfFileExists, hh, hg, hbody,
      hout, hdir, hb]

/-- C10 witness: downloading to `/data/cache/img.jpeg` with the whole tree
missing and the remote key absent leaves the `mkdirSync` of `/data/cache`
in the trace before the head-object call. -/
theorem C10_mkdir_before_head_witness :
    download stC { envOk with headObject := fun _ => Except.error (Thrown.err "timeout") }
      "assets/example.jpeg" "/data/cache/img.jpeg" =
      (Except.error (Thrown.err "File does not exist!"),
       [Event.remote RemoteCall.listBuckets,
        Event.localMkdir "/data/cache",
        Event.remote (RemoteCall.headObject (some "example-bucket")
          "assets/example.jpeg")]) :=
  (C10_mkdir_before_head stC
    { envOk with headObject := fun _ => Except.error (Thrown.err "timeout") }
    "assets/example.jpeg" "/data/cache/img.jpeg" "example-bucket"
    rfl rfl rfl rfl).1 (Thrown.err "timeout") rfl
